import Mathlib

/-!
# Three-body integrator (`threebodyproblem.cpp`)

A shallow embedding of the integration core of the program: the pairwise force
law `compute`, the single-body leapfrog step `iter`, and the body of the main
loop (`Step`), which advances the three bodies one after the other.

## Arithmetic

The program computes with `double`.  The embedding is generic in the scalar
type `α` (it only uses `+ - * /`, decimal literals and the square root of
`<cmath>`, which is passed in as `sqrt`), so every definition is a plain
computable function of the arithmetic it is given.

The theorems instantiate `α` with `Double ℝ`: exact real numbers extended by
one value `nan`.  Rounding and overflow are not modelled.  Division by zero is:
every division of the program whose divisor is zero has a zero (or `nan`)
numerator (`dx = dy = 0` when `r = 0`, and each force carries the factor
`body.mass`), so IEEE arithmetic returns NaN there, and NaN is absorbing for
`+ - * /` and `sqrt`.  `Double` reproduces exactly this: `x / 0 = nan` and every
operation with a `nan` argument is `nan`.
-/

namespace ThreeBody

/-! ## Scalars -/

/-- A `double` in exact arithmetic: a number (`fin x`) or the undefined result
of a division by zero (`nan`). -/
inductive Double (α : Type) where
  | nan : Double α
  | fin : α → Double α
  deriving DecidableEq, Repr

namespace Double

variable {α : Type}

/-- Unary operation, `nan` in, `nan` out. -/
def map₁ (f : α → α) : Double α → Double α
  | fin a => fin (f a)
  | nan => nan

/-- Binary operation, `nan` if either argument is. -/
def map₂ (f : α → α → α) : Double α → Double α → Double α
  | fin a, fin b => fin (f a b)
  | _, _ => nan

/-- Division: `nan` if either argument is, or if the divisor is zero. -/
def div [Div α] [Zero α] [DecidableEq α] : Double α → Double α → Double α
  | fin a, fin b => if b = 0 then nan else fin (a / b)
  | _, _ => nan

instance [Add α] : Add (Double α) := ⟨map₂ (· + ·)⟩
instance [Sub α] : Sub (Double α) := ⟨map₂ (· - ·)⟩
instance [Mul α] : Mul (Double α) := ⟨map₂ (· * ·)⟩
instance [Neg α] : Neg (Double α) := ⟨map₁ (- ·)⟩
instance [Div α] [Zero α] [DecidableEq α] : Div (Double α) := ⟨div⟩
instance [OfScientific α] : OfScientific (Double α) :=
  ⟨fun m s e => fin (OfScientific.ofScientific m s e)⟩

/-- The square root of `<cmath>` on `Double`, from a square root on numbers. -/
def sqrt (f : α → α) : Double α → Double α := map₁ f

end Double

/-! ## The program -/

section Program

variable {α : Type} [Add α] [Sub α] [Mul α] [Div α] [OfScientific α]

/-- Normalized gravity constant (`const double G = 1.0`). -/
def G : α := 1.0

/-- One point mass (`struct Body`). -/
structure Body (α : Type) where
  /-- mass of the object -/
  mass : α
  /-- x coordinate -/
  x : α
  /-- y coordinate -/
  y : α
  /-- velocity in x -/
  vx : α
  /-- velocity in y -/
  vy : α
  /-- acceleration in x -/
  ax : α
  /-- acceleration in y -/
  ay : α
  deriving DecidableEq, Repr

/-- The divisor `r_cubed` of `compute`. -/
def r_cubed (sqrt : α → α) (body1 body2 : Body α) : α :=
  let dx := body2.x - body1.x
  let dy := body2.y - body1.y
  let r := sqrt (dx * dx + dy * dy)
  r * r * r

/-- Gravitational force on `body1` due to `body2` (`compute`); the two output
parameters `fx`, `fy` are returned as a pair. -/
def compute (sqrt : α → α) (body1 body2 : Body α) : α × α :=
  let dx := body2.x - body1.x
  let dy := body2.y - body1.y
  let r := sqrt (dx * dx + dy * dy)
  let r_cubed := r * r * r
  (G * body1.mass * body2.mass * dx / r_cubed,
   G * body1.mass * body2.mass * dy / r_cubed)

/-- One leapfrog update of `body` against `other1` and `other2` (`iter`); the
body mutated in place is returned. -/
def iter (sqrt : α → α) (body other1 other2 : Body α) (dt : α) : Body α :=
  -- compute forces between the bodies
  let f1 := compute sqrt body other1
  let f2 := compute sqrt body other2
  -- update acceleration
  let body := { body with ax := (f1.1 + f2.1) / body.mass }
  let body := { body with ay := (f1.2 + f2.2) / body.mass }
  -- update velocity at half step
  let body := { body with vx := body.vx + 0.5 * body.ax * dt }
  let body := { body with vy := body.vy + 0.5 * body.ay * dt }
  -- update position
  let body := { body with x := body.x + body.vx * dt }
  let body := { body with y := body.y + body.vy * dt }
  -- compute forces again with updated positions
  let f1 := compute sqrt body other1
  let f2 := compute sqrt body other2
  -- update acceleration again
  let body := { body with ax := (f1.1 + f2.1) / body.mass }
  let body := { body with ay := (f1.2 + f2.2) / body.mass }
  -- update velocity at full step
  let body := { body with vx := body.vx + 0.5 * body.ax * dt }
  let body := { body with vy := body.vy + 0.5 * body.ay * dt }
  body

/-- First half of `iter`: the force evaluation at the current position, the
half kick and the drift. -/
def kickDrift (sqrt : α → α) (body other1 other2 : Body α) (dt : α) : Body α :=
  let f1 := compute sqrt body other1
  let f2 := compute sqrt body other2
  let body := { body with ax := (f1.1 + f2.1) / body.mass }
  let body := { body with ay := (f1.2 + f2.2) / body.mass }
  let body := { body with vx := body.vx + 0.5 * body.ax * dt }
  let body := { body with vy := body.vy + 0.5 * body.ay * dt }
  let body := { body with x := body.x + body.vx * dt }
  let body := { body with y := body.y + body.vy * dt }
  body

/-- Second half of `iter`: the force evaluation at the new position and the
second half kick. -/
def kick (sqrt : α → α) (body other1 other2 : Body α) (dt : α) : Body α :=
  let f1 := compute sqrt body other1
  let f2 := compute sqrt body other2
  let body := { body with ax := (f1.1 + f2.1) / body.mass }
  let body := { body with ay := (f1.2 + f2.2) / body.mass }
  let body := { body with vx := body.vx + 0.5 * body.ax * dt }
  let body := { body with vy := body.vy + 0.5 * body.ay * dt }
  body

/-- The three bodies held by `main`. -/
structure State (α : Type) where
  body1 : Body α
  body2 : Body α
  body3 : Body α
  deriving DecidableEq, Repr

/-- The integration part of the body of the main loop: three calls of `iter`,
each mutating one body of the state in place. -/
def Step (sqrt : α → α) (s : State α) (dt : α) : State α :=
  let s := { s with body1 := iter sqrt s.body1 s.body2 s.body3 dt }
  let s := { s with body2 := iter sqrt s.body2 s.body1 s.body3 dt }
  let s := { s with body3 := iter sqrt s.body3 s.body1 s.body2 dt }
  s

/-- The main loop: `steps` iterations of `Step`. -/
def loop (sqrt : α → α) (dt : α) : Nat → State α → State α
  | 0, s => s
  | steps + 1, s => loop sqrt dt steps (Step sqrt s dt)

/-- Initial x velocity of the case run by `main` (`vsx`, I.A.3 bumblebee). -/
def vsx : α := 0.18428

/-- Initial y velocity of the case run by `main` (`vsy`). -/
def vsy : α := 0.58719

/-- The three bodies as `main` initialises them; the accelerations, left out of
the initialiser lists, are zero. -/
def main_state [Neg α] : State α :=
  { body1 := ⟨1.0, -1.0, 0.0, vsx, vsy, 0.0, 0.0⟩
    body2 := ⟨1.0, 1.0, 0.0, vsx, vsy, 0.0, 0.0⟩
    body3 := ⟨1.0, 0.0, 0.0, -2.0 * vsx, -2.0 * vsy, 0.0, 0.0⟩ }

/-- The time step of `main` (`dt`). -/
def main_dt : α := 0.0001

/-- Hypothetical symmetric variant of `Step`: each of the three bodies is
advanced by `iter` against the pre-step snapshot of the other two. -/
def Step_symmetric (sqrt : α → α) (s : State α) (dt : α) : State α :=
  { body1 := iter sqrt s.body1 s.body2 s.body3 dt
    body2 := iter sqrt s.body2 s.body1 s.body3 dt
    body3 := iter sqrt s.body3 s.body1 s.body2 dt }

/-- The two bodies are at the same position. -/
def samePos (A B : Body α) : Prop := A.x = B.x ∧ A.y = B.y

instance [DecidableEq α] (A B : Body α) : Decidable (samePos A B) :=
  inferInstanceAs (Decidable (A.x = B.x ∧ A.y = B.y))

end Program

/-- The value is a number greater than zero. -/
def Double.isPos {α : Type} [Zero α] [LT α] : Double α → Prop
  | .fin a => 0 < a
  | .nan => False

instance {α : Type} [Zero α] [LT α] [DecidableRel (fun a b : α => a < b)] (d : Double α) :
    Decidable d.isPos :=
  match d with
  | .fin a => inferInstanceAs (Decidable (0 < a))
  | .nan => inferInstanceAs (Decidable False)

/-- All three masses are greater than zero. -/
def massesPositive {α : Type} [Zero α] [LT α] (s : State (Double α)) : Prop :=
  s.body1.mass.isPos ∧ s.body2.mass.isPos ∧ s.body3.mass.isPos

/-- A body whose seven fields are numbers, as a body of the program. -/
def Body.lift {α : Type} (b : Body α) : Body (Double α) :=
  { mass := .fin b.mass, x := .fin b.x, y := .fin b.y, vx := .fin b.vx, vy := .fin b.vy,
    ax := .fin b.ax, ay := .fin b.ay }

/-- A state whose bodies have numbers in all fields, as a state of the program. -/
def State.lift {α : Type} (s : State α) : State (Double α) :=
  { body1 := s.body1.lift, body2 := s.body2.lift, body3 := s.body3.lift }

/-- The three positions of the state are pairwise distinct. -/
def distinctPositions {α : Type} (s : State α) : Prop :=
  ¬samePos s.body1 s.body2 ∧ ¬samePos s.body1 s.body3 ∧ ¬samePos s.body2 s.body3

instance {α : Type} [DecidableEq α] (s : State α) : Decidable (distinctPositions s) :=
  inferInstanceAs (Decidable (¬samePos s.body1 s.body2 ∧ ¬samePos s.body1 s.body3 ∧
    ¬samePos s.body2 s.body3))

/-- The single-body steps in the reverse order of `Step`: `iter` on body3
against body1 and body2, then on body2 against body1 and body3, then on body1
against body2 and body3. -/
def Step_reverse {α : Type} [Add α] [Sub α] [Mul α] [Div α] [OfScientific α]
    (sqrt : α → α) (s : State α) (dt : α) : State α :=
  let s := { s with body3 := iter sqrt s.body3 s.body1 s.body2 dt }
  let s := { s with body2 := iter sqrt s.body2 s.body1 s.body3 dt }
  let s := { s with body1 := iter sqrt s.body1 s.body2 s.body3 dt }
  s

/-- Total momentum in x: the sum of `mass * vx` over the three bodies. -/
def momentum_x {α : Type} [Add α] [Mul α] (s : State α) : α :=
  s.body1.mass * s.body1.vx + s.body2.mass * s.body2.vx + s.body3.mass * s.body3.vx

/-- Total momentum in y: the sum of `mass * vy` over the three bodies. -/
def momentum_y {α : Type} [Add α] [Mul α] (s : State α) : α :=
  s.body1.mass * s.body1.vy + s.body2.mass * s.body2.vy + s.body3.mass * s.body3.vy

/-- The two bodies have the same mass and the same position, all that `compute`
reads of a body. -/
def sameMassPos {α : Type} (A B : Body α) : Prop :=
  A.mass = B.mass ∧ A.x = B.x ∧ A.y = B.y

/-- No division of `iter self other1 other2 dt` has a zero divisor: the mass of
`self` is not zero and `self` is away from both others at its two force
evaluations, before and after the drift (computed in real arithmetic). -/
def iterDefined (self other1 other2 : Body ℝ) (dt : ℝ) : Prop :=
  self.mass ≠ 0 ∧ ¬samePos self other1 ∧ ¬samePos self other2 ∧
    ¬samePos (kickDrift Real.sqrt self other1 other2 dt) other1 ∧
    ¬samePos (kickDrift Real.sqrt self other1 other2 dt) other2

/-! ## Arithmetic of `Double` -/

namespace Double

variable {α : Type}

@[simp]
theorem fin_add_fin [Add α] (a b : α) : (fin a + fin b : Double α) = fin (a + b) := rfl
@[simp]
theorem fin_sub_fin [Sub α] (a b : α) : (fin a - fin b : Double α) = fin (a - b) := rfl
@[simp]
theorem fin_mul_fin [Mul α] (a b : α) : (fin a * fin b : Double α) = fin (a * b) := rfl
@[simp]
theorem neg_fin [Neg α] (a : α) : (-fin a : Double α) = fin (-a) := rfl
@[simp]
theorem neg_nan [Neg α] : (-nan : Double α) = nan := rfl
@[simp]
theorem nan_add [Add α] (a : Double α) : nan + a = nan := rfl
@[simp]
theorem add_nan [Add α] (a : Double α) : a + nan = nan := by cases a <;> rfl
@[simp]
theorem nan_sub [Sub α] (a : Double α) : nan - a = nan := rfl
@[simp]
theorem sub_nan [Sub α] (a : Double α) : a - nan = nan := by cases a <;> rfl
@[simp]
theorem nan_mul [Mul α] (a : Double α) : nan * a = nan := rfl
@[simp]
theorem mul_nan [Mul α] (a : Double α) : a * nan = nan := by cases a <;> rfl
@[simp]
theorem nan_div [Div α] [Zero α] [DecidableEq α] (a : Double α) : nan / a = nan := rfl
@[simp]
theorem div_nan [Div α] [Zero α] [DecidableEq α] (a : Double α) : a / nan = nan := by
  cases a <;> rfl
@[simp]
theorem sqrt_fin (f : α → α) (a : α) : sqrt f (fin a) = fin (f a) := rfl
@[simp]
theorem sqrt_nan (f : α → α) : sqrt f (nan : Double α) = nan := rfl

theorem fin_div_fin [Div α] [Zero α] [DecidableEq α] (a b : α) :
    (fin a / fin b : Double α) = if b = 0 then nan else fin (a / b) := rfl

@[simp]
theorem fin_div_zero [Div α] [Zero α] [DecidableEq α] (a : α) :
    (fin a / fin 0 : Double α) = nan := by
  simp [fin_div_fin]

theorem fin_div_fin_of_ne [Div α] [Zero α] [DecidableEq α] (a : α) {b : α} (hb : b ≠ 0) :
    (fin a / fin b : Double α) = fin (a / b) := by
  simp [fin_div_fin, hb]

@[simp]
theorem ofScientific_eq [OfScientific α] (m : Nat) (s : Bool) (e : Nat) :
    (OfScientific.ofScientific m s e : Double α) = fin (OfScientific.ofScientific m s e) := rfl

end Double

/-- The gravity constant is the number one. -/
theorem G_eq_one : (G : Double ℝ) = .fin 1 := by
  show Double.fin (OfScientific.ofScientific 10 true 1) = Double.fin (1 : ℝ)
  norm_num

/-! ## The force law on numbers -/

/-- The distance of two distinct points is positive. -/
theorem sqrt_pos_of_ne {dx dy : ℝ} (h : ¬(dx = 0 ∧ dy = 0)) :
    0 < Real.sqrt (dx * dx + dy * dy) := by
  apply Real.sqrt_pos.mpr
  by_cases hx : dx = 0
  · have hy : dy ≠ 0 := fun hy => h ⟨hx, hy⟩
    have := mul_self_pos.mpr hy
    nlinarith [mul_self_nonneg dx]
  · have := mul_self_pos.mpr hx
    nlinarith [mul_self_nonneg dy]

/-- The divisor of `compute` on numbers is zero exactly at coincident positions. -/
theorem r_cubed_real_eq_zero_iff (A B : Body ℝ) :
    r_cubed Real.sqrt A B = 0 ↔ samePos A B := by
  unfold r_cubed samePos
  constructor
  · intro h
    by_contra hne
    have hpos : 0 < Real.sqrt ((B.x - A.x) * (B.x - A.x) + (B.y - A.y) * (B.y - A.y)) :=
      sqrt_pos_of_ne (fun ⟨h1, h2⟩ => hne ⟨by linarith, by linarith⟩)
    have : 0 < Real.sqrt ((B.x - A.x) * (B.x - A.x) + (B.y - A.y) * (B.y - A.y)) *
        Real.sqrt ((B.x - A.x) * (B.x - A.x) + (B.y - A.y) * (B.y - A.y)) *
        Real.sqrt ((B.x - A.x) * (B.x - A.x) + (B.y - A.y) * (B.y - A.y)) := by positivity
    simp only at h
    linarith
  · rintro ⟨h1, h2⟩
    simp [h1, h2]

/-- On bodies with numbers in all fields, `compute` is undefined at coincident
positions and otherwise the force computed in real arithmetic. -/
theorem compute_lift (A B : Body ℝ) :
    compute (Double.sqrt Real.sqrt) A.lift B.lift =
      if samePos A B then (.nan, .nan)
      else (.fin (compute Real.sqrt A B).1, .fin (compute Real.sqrt A B).2) := by
  have hr := r_cubed_real_eq_zero_iff A B
  unfold r_cubed at hr
  simp only at hr
  have hG : (G : ℝ) = 1 := by unfold G; norm_num
  split_ifs with h
  · have h0 := hr.mpr h
    simp only [compute, Body.lift, G_eq_one, Double.fin_sub_fin, Double.fin_mul_fin,
      Double.fin_add_fin, Double.sqrt_fin, Double.fin_div_fin, h0, if_true]
  · have h0 : ¬ _ := fun h0 => h (hr.mp h0)
    simp only [compute, Body.lift, G_eq_one, Double.fin_sub_fin, Double.fin_mul_fin,
      Double.fin_add_fin, Double.sqrt_fin, Double.fin_div_fin, h0, if_false, hG]

theorem samePos_comm {α : Type} (A B : Body α) : samePos A B ↔ samePos B A := by
  unfold samePos
  constructor <;> rintro ⟨h1, h2⟩ <;> exact ⟨h1.symm, h2.symm⟩

/-! ## Fields of `iter` and `Step` -/

section Fields

variable {α : Type} [Add α] [Sub α] [Mul α] [Div α] [OfScientific α]

theorem iter_mass (sqrt : α → α) (b o1 o2 : Body α) (dt : α) :
    (iter sqrt b o1 o2 dt).mass = b.mass := rfl

theorem iter_x (sqrt : α → α) (b o1 o2 : Body α) (dt : α) :
    (iter sqrt b o1 o2 dt).x =
      b.x + (b.vx + 0.5 * (((compute sqrt b o1).1 + (compute sqrt b o2).1) / b.mass) * dt) * dt :=
  rfl

theorem iter_y (sqrt : α → α) (b o1 o2 : Body α) (dt : α) :
    (iter sqrt b o1 o2 dt).y =
      b.y + (b.vy + 0.5 * (((compute sqrt b o1).2 + (compute sqrt b o2).2) / b.mass) * dt) * dt :=
  rfl

theorem kick_ax (sqrt : α → α) (b o1 o2 : Body α) (dt : α) :
    (kick sqrt b o1 o2 dt).ax = ((compute sqrt b o1).1 + (compute sqrt b o2).1) / b.mass := rfl

theorem kick_vx (sqrt : α → α) (b o1 o2 : Body α) (dt : α) :
    (kick sqrt b o1 o2 dt).vx =
      b.vx + 0.5 * (((compute sqrt b o1).1 + (compute sqrt b o2).1) / b.mass) * dt := rfl

theorem kickDrift_mass (sqrt : α → α) (b o1 o2 : Body α) (dt : α) :
    (kickDrift sqrt b o1 o2 dt).mass = b.mass := rfl

theorem kickDrift_vx (sqrt : α → α) (b o1 o2 : Body α) (dt : α) :
    (kickDrift sqrt b o1 o2 dt).vx =
      b.vx + 0.5 * (((compute sqrt b o1).1 + (compute sqrt b o2).1) / b.mass) * dt := rfl

theorem kickDrift_vy (sqrt : α → α) (b o1 o2 : Body α) (dt : α) :
    (kickDrift sqrt b o1 o2 dt).vy =
      b.vy + 0.5 * (((compute sqrt b o1).2 + (compute sqrt b o2).2) / b.mass) * dt := rfl

theorem kickDrift_x (sqrt : α → α) (b o1 o2 : Body α) (dt : α) :
    (kickDrift sqrt b o1 o2 dt).x = (iter sqrt b o1 o2 dt).x := rfl

theorem kickDrift_y (sqrt : α → α) (b o1 o2 : Body α) (dt : α) :
    (kickDrift sqrt b o1 o2 dt).y = (iter sqrt b o1 o2 dt).y := rfl

theorem iter_vx (sqrt : α → α) (b o1 o2 : Body α) (dt : α) :
    (iter sqrt b o1 o2 dt).vx =
      (kickDrift sqrt b o1 o2 dt).vx +
        0.5 * (((compute sqrt (kickDrift sqrt b o1 o2 dt) o1).1 +
          (compute sqrt (kickDrift sqrt b o1 o2 dt) o2).1) / b.mass) * dt := rfl

theorem iter_vy (sqrt : α → α) (b o1 o2 : Body α) (dt : α) :
    (iter sqrt b o1 o2 dt).vy =
      (kickDrift sqrt b o1 o2 dt).vy +
        0.5 * (((compute sqrt (kickDrift sqrt b o1 o2 dt) o1).2 +
          (compute sqrt (kickDrift sqrt b o1 o2 dt) o2).2) / b.mass) * dt := rfl

theorem Step_reverse_body1 (sqrt : α → α) (s : State α) (dt : α) :
    (Step_reverse sqrt s dt).body1 =
      iter sqrt s.body1 (Step_reverse sqrt s dt).body2 (Step_reverse sqrt s dt).body3 dt := rfl

theorem kickDrift_ax (sqrt : α → α) (b o1 o2 : Body α) (dt : α) :
    (kickDrift sqrt b o1 o2 dt).ax = ((compute sqrt b o1).1 + (compute sqrt b o2).1) / b.mass :=
  rfl

theorem kickDrift_ay (sqrt : α → α) (b o1 o2 : Body α) (dt : α) :
    (kickDrift sqrt b o1 o2 dt).ay = ((compute sqrt b o1).2 + (compute sqrt b o2).2) / b.mass :=
  rfl

theorem Step_body1 (sqrt : α → α) (s : State α) (dt : α) :
    (Step sqrt s dt).body1 = iter sqrt s.body1 s.body2 s.body3 dt := rfl

theorem Step_body2 (sqrt : α → α) (s : State α) (dt : α) :
    (Step sqrt s dt).body2 =
      iter sqrt s.body2 (iter sqrt s.body1 s.body2 s.body3 dt) s.body3 dt := rfl

theorem Step_body3 (sqrt : α → α) (s : State α) (dt : α) :
    (Step sqrt s dt).body3 =
      iter sqrt s.body3 (iter sqrt s.body1 s.body2 s.body3 dt)
        (iter sqrt s.body2 (iter sqrt s.body1 s.body2 s.body3 dt) s.body3 dt) dt := rfl

end Fields

/-! ## The single-body step on numbers -/

/-- `iter` is its first half followed by its second half. -/
theorem iter_eq_kick_kickDrift {α : Type} [Add α] [Sub α] [Mul α] [Div α] [OfScientific α]
    (sqrt : α → α) (body other1 other2 : Body α) (dt : α) :
    iter sqrt body other1 other2 dt =
      kick sqrt (kickDrift sqrt body other1 other2 dt) other1 other2 dt := rfl

/-- Away from the others and with a nonzero mass, the first half of `iter` is
the one of real arithmetic. -/
theorem kickDrift_lift (self o1 o2 : Body ℝ) (dt : ℝ) (hm : self.mass ≠ 0)
    (h1 : ¬samePos self o1) (h2 : ¬samePos self o2) :
    kickDrift (Double.sqrt Real.sqrt) self.lift o1.lift o2.lift (.fin dt) =
      (kickDrift Real.sqrt self o1 o2 dt).lift := by
  have e1 := compute_lift self o1
  have e2 := compute_lift self o2
  rw [if_neg h1] at e1
  rw [if_neg h2] at e2
  unfold kickDrift
  rw [e1, e2]
  simp [Body.lift, Double.fin_div_fin_of_ne _ hm]

/-- Away from the others and with a nonzero mass, the second half of `iter` is
the one of real arithmetic. -/
theorem kick_lift (self o1 o2 : Body ℝ) (dt : ℝ) (hm : self.mass ≠ 0)
    (h1 : ¬samePos self o1) (h2 : ¬samePos self o2) :
    kick (Double.sqrt Real.sqrt) self.lift o1.lift o2.lift (.fin dt) =
      (kick Real.sqrt self o1 o2 dt).lift := by
  have e1 := compute_lift self o1
  have e2 := compute_lift self o2
  rw [if_neg h1] at e1
  rw [if_neg h2] at e2
  unfold kick
  rw [e1, e2]
  simp [Body.lift, Double.fin_div_fin_of_ne _ hm]

/-- With a nonzero mass, away from the others before and after the drift, `iter`
is the step of real arithmetic. -/
theorem iter_lift (self o1 o2 : Body ℝ) (dt : ℝ) (hm : self.mass ≠ 0)
    (h1 : ¬samePos self o1) (h2 : ¬samePos self o2)
    (h1' : ¬samePos (kickDrift Real.sqrt self o1 o2 dt) o1)
    (h2' : ¬samePos (kickDrift Real.sqrt self o1 o2 dt) o2) :
    iter (Double.sqrt Real.sqrt) self.lift o1.lift o2.lift (.fin dt) =
      (iter Real.sqrt self o1 o2 dt).lift := by
  rw [iter_eq_kick_kickDrift, iter_eq_kick_kickDrift, kickDrift_lift _ _ _ _ hm h1 h2,
    kick_lift _ _ _ _ (by exact hm) h1' h2']

/-- `compute` reads only the mass and the position of its first argument. -/
theorem compute_congr {α : Type} [Add α] [Sub α] [Mul α] [Div α] [OfScientific α]
    (sqrt : α → α) (A A' B : Body α) (hm : A.mass = A'.mass) (hx : A.x = A'.x)
    (hy : A.y = A'.y) : compute sqrt A B = compute sqrt A' B := by
  unfold compute
  rw [hm, hx, hy]

/-- In real arithmetic the first half of the backward step undoes the drift. -/
theorem kickDrift_iter_neg (self o1 o2 : Body ℝ) (dt : ℝ) :
    let K := kickDrift Real.sqrt (iter Real.sqrt self o1 o2 dt) o1 o2 (-dt)
    K.mass = self.mass ∧ K.x = self.x ∧ K.y = self.y ∧
      K.vx = (kickDrift Real.sqrt self o1 o2 dt).vx ∧
      K.vy = (kickDrift Real.sqrt self o1 o2 dt).vy := by
  refine ⟨rfl, ?_, ?_, ?_, ?_⟩ <;> simp only [iter, kickDrift, compute] <;> ring

/-- In real arithmetic a step with `dt` followed by a step with `-dt` restores
mass, position and velocity. -/
theorem iter_real_reverse (self o1 o2 : Body ℝ) (dt : ℝ) :
    let R := iter Real.sqrt (iter Real.sqrt self o1 o2 dt) o1 o2 (-dt)
    R.mass = self.mass ∧ R.x = self.x ∧ R.y = self.y ∧ R.vx = self.vx ∧ R.vy = self.vy := by
  obtain ⟨hm, hx, hy, hvx, hvy⟩ := kickDrift_iter_neg self o1 o2 dt
  have hc1 := compute_congr Real.sqrt _ _ o1 hm hx hy
  have hc2 := compute_congr Real.sqrt _ _ o2 hm hx hy
  intro R
  refine ⟨rfl, hx, hy, ?_, ?_⟩
  · show (kickDrift Real.sqrt (iter Real.sqrt self o1 o2 dt) o1 o2 (-dt)).vx +
      0.5 * (((compute Real.sqrt (kickDrift Real.sqrt (iter Real.sqrt self o1 o2 dt) o1 o2 (-dt))
        o1).1 + (compute Real.sqrt (kickDrift Real.sqrt (iter Real.sqrt self o1 o2 dt) o1 o2
        (-dt)) o2).1) / self.mass) * (-dt) = self.vx
    rw [hc1, hc2, hvx]
    simp only [kickDrift]
    ring
  · show (kickDrift Real.sqrt (iter Real.sqrt self o1 o2 dt) o1 o2 (-dt)).vy +
      0.5 * (((compute Real.sqrt (kickDrift Real.sqrt (iter Real.sqrt self o1 o2 dt) o1 o2 (-dt))
        o1).2 + (compute Real.sqrt (kickDrift Real.sqrt (iter Real.sqrt self o1 o2 dt) o1 o2
        (-dt)) o2).2) / self.mass) * (-dt) = self.vy
    rw [hc1, hc2, hvy]
    simp only [kickDrift]
    ring

theorem samePos_lift (A B : Body ℝ) : samePos A.lift B.lift ↔ samePos A B := by
  simp [samePos, Body.lift]

/-- The position after `iter` is the drifted position of real arithmetic when
the first force evaluation is defined. -/
theorem samePos_iter_lift (self o1 o2 o : Body ℝ) (dt : ℝ) (hm : self.mass ≠ 0)
    (h1 : ¬samePos self o1) (h2 : ¬samePos self o2) :
    samePos (iter (Double.sqrt Real.sqrt) self.lift o1.lift o2.lift (.fin dt)) o.lift ↔
      samePos (kickDrift Real.sqrt self o1 o2 dt) o := by
  rw [← samePos_lift, ← kickDrift_lift _ _ _ _ hm h1 h2]
  exact Iff.rfl

/-- Where no division has a zero divisor, `iter` is the step of real arithmetic. -/
theorem iter_lift_of_defined {self o1 o2 : Body ℝ} {dt : ℝ} (h : iterDefined self o1 o2 dt) :
    iter (Double.sqrt Real.sqrt) self.lift o1.lift o2.lift (.fin dt) =
      (iter Real.sqrt self o1 o2 dt).lift :=
  iter_lift self o1 o2 dt h.1 h.2.1 h.2.2.1 h.2.2.2.1 h.2.2.2.2

/-- Where no division of the three calls of `iter` has a zero divisor, `Step` is
the step of real arithmetic. -/
theorem Step_lift (s : State ℝ) (dt : ℝ)
    (d1 : iterDefined s.body1 s.body2 s.body3 dt)
    (d2 : iterDefined s.body2 (Step Real.sqrt s dt).body1 s.body3 dt)
    (d3 : iterDefined s.body3 (Step Real.sqrt s dt).body1 (Step Real.sqrt s dt).body2 dt) :
    Step (Double.sqrt Real.sqrt) s.lift (.fin dt) = (Step Real.sqrt s dt).lift := by
  have e1 := iter_lift_of_defined d1
  have e2 := iter_lift_of_defined d2
  have e3 := iter_lift_of_defined d3
  simp only [Step, State.lift] at e1 e2 e3 ⊢
  rw [e1, e2, e3]

/-- A massless body away from `A` exerts the force zero on it. -/
theorem compute_lift_massless (A B : Body ℝ) (hz : B.mass = 0) (h : ¬samePos A B) :
    compute (Double.sqrt Real.sqrt) A.lift B.lift = (.fin 0, .fin 0) := by
  rw [compute_lift, if_neg h]
  simp [compute, hz]

/-- A body of mass zero comes out of `iter` with an undefined acceleration and
velocity: its own update divides by its mass. -/
theorem iter_massless_self (b o1 o2 : Body (Double ℝ)) (dt : Double ℝ) (hz : b.mass = .fin 0) :
    (iter (Double.sqrt Real.sqrt) b o1 o2 dt).ax = .nan ∧
    (iter (Double.sqrt Real.sqrt) b o1 o2 dt).vx = .nan := by
  have hdiv : ∀ a : Double ℝ, a / b.mass = .nan := by
    intro a
    rw [hz]
    cases a with
    | nan => rfl
    | fin a => simp
  have hK : (kickDrift (Double.sqrt Real.sqrt) b o1 o2 dt).mass = b.mass := rfl
  constructor
  · rw [iter_eq_kick_kickDrift, kick_ax, hK, hdiv]
  · rw [iter_eq_kick_kickDrift, kick_vx, hK, hdiv]
    simp

/-! ## Undoing a full-system step -/

section Congr

variable {α : Type} [Add α] [Sub α] [Mul α] [Div α] [OfScientific α]

/-- `compute` reads only the mass and the position of its second argument. -/
theorem compute_congr_right (sqrt : α → α) (A : Body α) {B B' : Body α}
    (h : sameMassPos B B') : compute sqrt A B = compute sqrt A B' := by
  obtain ⟨hm, hx, hy⟩ := h
  unfold compute
  rw [hm, hx, hy]

/-- `iter` reads only the masses and the positions of the two other bodies. -/
theorem iter_congr_others (sqrt : α → α) (b : Body α) {o1 o1' o2 o2' : Body α} (dt : α)
    (h1 : sameMassPos o1 o1') (h2 : sameMassPos o2 o2') :
    iter sqrt b o1 o2 dt = iter sqrt b o1' o2' dt := by
  have c1 : ∀ X, compute sqrt X o1 = compute sqrt X o1' := fun X =>
    compute_congr_right sqrt X h1
  have c2 : ∀ X, compute sqrt X o2 = compute sqrt X o2' := fun X =>
    compute_congr_right sqrt X h2
  simp only [iter, c1, c2]

theorem kickDrift_congr_others (sqrt : α → α) (b : Body α) {o1 o1' o2 o2' : Body α} (dt : α)
    (h1 : sameMassPos o1 o1') (h2 : sameMassPos o2 o2') :
    kickDrift sqrt b o1 o2 dt = kickDrift sqrt b o1' o2' dt := by
  have c1 : ∀ X, compute sqrt X o1 = compute sqrt X o1' := fun X =>
    compute_congr_right sqrt X h1
  have c2 : ∀ X, compute sqrt X o2 = compute sqrt X o2' := fun X =>
    compute_congr_right sqrt X h2
  simp only [kickDrift, c1, c2]

end Congr

theorem iterDefined_congr_others {self o1 o1' o2 o2' : Body ℝ} {dt : ℝ}
    (h1 : sameMassPos o1 o1') (h2 : sameMassPos o2 o2') (h : iterDefined self o1 o2 dt) :
    iterDefined self o1' o2' dt := by
  obtain ⟨hm, a1, a2, b1, b2⟩ := h
  rw [kickDrift_congr_others Real.sqrt self dt h1 h2] at b1 b2
  exact ⟨hm, fun hs => a1 ⟨hs.1.trans h1.2.1.symm, hs.2.trans h1.2.2.symm⟩,
    fun hs => a2 ⟨hs.1.trans h2.2.1.symm, hs.2.trans h2.2.2.symm⟩,
    fun hs => b1 ⟨hs.1.trans h1.2.1.symm, hs.2.trans h1.2.2.symm⟩,
    fun hs => b2 ⟨hs.1.trans h2.2.1.symm, hs.2.trans h2.2.2.symm⟩⟩

/-- Where the forward step is defined, so is the backward step from its result. -/
theorem iterDefined_reverse {self o1 o2 : Body ℝ} {dt : ℝ} (h : iterDefined self o1 o2 dt) :
    iterDefined (iter Real.sqrt self o1 o2 dt) o1 o2 (-dt) := by
  obtain ⟨hm, a1, a2, b1, b2⟩ := h
  obtain ⟨-, kx, ky, -, -⟩ := kickDrift_iter_neg self o1 o2 dt
  exact ⟨hm, b1, b2, fun hs => a1 ⟨kx ▸ hs.1, ky ▸ hs.2⟩, fun hs => a2 ⟨kx ▸ hs.1, ky ▸ hs.2⟩⟩

/-- In real arithmetic the result of the backward step has the mass and the
position of the body before the forward step. -/
theorem sameMassPos_iter_reverse (self o1 o2 : Body ℝ) (dt : ℝ) :
    sameMassPos (iter Real.sqrt (iter Real.sqrt self o1 o2 dt) o1 o2 (-dt)) self := by
  obtain ⟨rm, rx, ry, -, -⟩ := iter_real_reverse self o1 o2 dt
  exact ⟨rm, rx, ry⟩

/-- In real arithmetic the single-body steps in reverse order with `-dt` undo a
`Step` with `dt`, in mass, position and velocity. -/
theorem Step_reverse_real (s : State ℝ) (dt : ℝ) :
    let R := Step_reverse Real.sqrt (Step Real.sqrt s dt) (-dt)
    R.body3 = iter Real.sqrt (Step Real.sqrt s dt).body3 (Step Real.sqrt s dt).body1
        (Step Real.sqrt s dt).body2 (-dt) ∧
    R.body2 = iter Real.sqrt (Step Real.sqrt s dt).body2 (Step Real.sqrt s dt).body1
        s.body3 (-dt) ∧
    R.body1 = iter Real.sqrt (Step Real.sqrt s dt).body1 s.body2 s.body3 (-dt) := by
  intro R
  have h3 : sameMassPos R.body3 s.body3 := sameMassPos_iter_reverse _ _ _ _
  have e2 : R.body2 = iter Real.sqrt (Step Real.sqrt s dt).body2 (Step Real.sqrt s dt).body1
      s.body3 (-dt) :=
    iter_congr_others Real.sqrt _ _ ⟨rfl, rfl, rfl⟩ h3
  have h2 : sameMassPos R.body2 s.body2 := by
    rw [e2]
    exact sameMassPos_iter_reverse _ _ _ _
  exact ⟨rfl, e2, iter_congr_others Real.sqrt _ _ h2 h3⟩

theorem sameMassPos_symm {α : Type} {A B : Body α} (h : sameMassPos A B) : sameMassPos B A :=
  ⟨h.1.symm, h.2.1.symm, h.2.2.symm⟩

/-- Where no division of the three calls of `iter` has a zero divisor,
`Step_reverse` is the one of real arithmetic. -/
theorem Step_reverse_lift (t : State ℝ) (dt : ℝ)
    (e3 : iterDefined t.body3 t.body1 t.body2 dt)
    (e2 : iterDefined t.body2 t.body1 (Step_reverse Real.sqrt t dt).body3 dt)
    (e1 : iterDefined t.body1 (Step_reverse Real.sqrt t dt).body2
      (Step_reverse Real.sqrt t dt).body3 dt) :
    Step_reverse (Double.sqrt Real.sqrt) t.lift (.fin dt) =
      (Step_reverse Real.sqrt t dt).lift := by
  have r3 := iter_lift_of_defined e3
  have r2 := iter_lift_of_defined e2
  have r1 := iter_lift_of_defined e1
  simp only [Step_reverse, State.lift] at r1 r2 r3 ⊢
  rw [r3, r2, r1]

/-- The three calls of `iter` in a `Step` divide by no zero when the masses are
not zero and the positions are pairwise distinct before the `Step` and after
each of its three single-body updates. -/
theorem Step_defined_of_distinct (s : State ℝ) (dt : ℝ)
    (hm1 : s.body1.mass ≠ 0) (hm2 : s.body2.mass ≠ 0) (hm3 : s.body3.mass ≠ 0)
    (h0 : distinctPositions s.lift)
    (h1 : distinctPositions
      ⟨(Step (Double.sqrt Real.sqrt) s.lift (.fin dt)).body1, s.lift.body2, s.lift.body3⟩)
    (h2 : distinctPositions
      ⟨(Step (Double.sqrt Real.sqrt) s.lift (.fin dt)).body1,
        (Step (Double.sqrt Real.sqrt) s.lift (.fin dt)).body2, s.lift.body3⟩)
    (h3 : distinctPositions (Step (Double.sqrt Real.sqrt) s.lift (.fin dt))) :
    iterDefined s.body1 s.body2 s.body3 dt ∧
    iterDefined s.body2 (Step Real.sqrt s dt).body1 s.body3 dt ∧
    iterDefined s.body3 (Step Real.sqrt s dt).body1 (Step Real.sqrt s dt).body2 dt := by
  obtain ⟨p12, p13, p23⟩ := h0
  obtain ⟨q12, q13, -⟩ := h1
  obtain ⟨r12, -, r23⟩ := h2
  obtain ⟨-, t13, t23⟩ := h3
  have p12' : ¬samePos s.body1 s.body2 := fun hs => p12 ((samePos_lift _ _).mpr hs)
  have p13' : ¬samePos s.body1 s.body3 := fun hs => p13 ((samePos_lift _ _).mpr hs)
  have p23' : ¬samePos s.body2 s.body3 := fun hs => p23 ((samePos_lift _ _).mpr hs)
  have d1 : iterDefined s.body1 s.body2 s.body3 dt :=
    ⟨hm1, p12', p13',
      fun hs => q12 ((samePos_iter_lift _ _ _ _ _ hm1 p12' p13').mpr hs),
      fun hs => q13 ((samePos_iter_lift _ _ _ _ _ hm1 p12' p13').mpr hs)⟩
  have e1 : (Step (Double.sqrt Real.sqrt) s.lift (.fin dt)).body1 =
      (Step Real.sqrt s dt).body1.lift := iter_lift_of_defined d1
  have e2 : (Step (Double.sqrt Real.sqrt) s.lift (.fin dt)).body2 =
      iter (Double.sqrt Real.sqrt) s.body2.lift (Step Real.sqrt s dt).body1.lift
        s.body3.lift (.fin dt) := by
    rw [← e1]
    rfl
  have a21 : ¬samePos s.body2 (Step Real.sqrt s dt).body1 := by
    intro hs
    apply q12
    rw [e1]
    exact (samePos_lift _ _).mpr ((samePos_comm _ _).mp hs)
  have a31 : ¬samePos s.body3 (Step Real.sqrt s dt).body1 := by
    intro hs
    apply q13
    rw [e1]
    exact (samePos_lift _ _).mpr ((samePos_comm _ _).mp hs)
  have d2 : iterDefined s.body2 (Step Real.sqrt s dt).body1 s.body3 dt := by
    refine ⟨hm2, a21, p23', ?_, ?_⟩
    · intro hs
      apply r12
      rw [e1, e2]
      exact (samePos_comm _ _).mp ((samePos_iter_lift _ _ _ _ _ hm2 a21 p23').mpr hs)
    · intro hs
      apply r23
      rw [e2]
      exact (samePos_iter_lift _ _ _ _ _ hm2 a21 p23').mpr hs
  have e2' : (Step (Double.sqrt Real.sqrt) s.lift (.fin dt)).body2 =
      (Step Real.sqrt s dt).body2.lift := by
    rw [e2]
    exact iter_lift_of_defined d2
  have e3 : (Step (Double.sqrt Real.sqrt) s.lift (.fin dt)).body3 =
      iter (Double.sqrt Real.sqrt) s.body3.lift (Step Real.sqrt s dt).body1.lift
        (Step Real.sqrt s dt).body2.lift (.fin dt) := by
    rw [← e1, ← e2']
    rfl
  have a32 : ¬samePos s.body3 (Step Real.sqrt s dt).body2 := by
    intro hs
    apply r23
    rw [e2']
    exact (samePos_lift _ _).mpr ((samePos_comm _ _).mp hs)
  have d3 : iterDefined s.body3 (Step Real.sqrt s dt).body1 (Step Real.sqrt s dt).body2 dt := by
    refine ⟨hm3, a31, a32, ?_, ?_⟩
    · intro hs
      apply t13
      rw [e1, e3]
      exact (samePos_comm _ _).mp ((samePos_iter_lift _ _ _ _ _ hm3 a31 a32).mpr hs)
    · intro hs
      apply t23
      rw [e2', e3]
      exact (samePos_comm _ _).mp ((samePos_iter_lift _ _ _ _ _ hm3 a31 a32).mpr hs)
  exact ⟨d1, d2, d3⟩

/-- A body with an undefined velocity comes out of `iter` with an undefined
position. -/
theorem iter_x_of_vx_nan (b o1 o2 : Body (Double ℝ)) (dt : Double ℝ) (h : b.vx = .nan) :
    (iter (Double.sqrt Real.sqrt) b o1 o2 dt).x = .nan := by
  rw [iter_x, h]
  simp

/-! ## Translation -/

/-- Evaluation of a square root at a square. -/
theorem sqrt_eq_of_mul_self {x r : ℝ} (hr : 0 ≤ r) (h : x = r * r) : Real.sqrt x = r := by
  rw [h]
  exact Real.sqrt_mul_self hr

theorem sqrt_four : Real.sqrt 4 = 2 := sqrt_eq_of_mul_self (by norm_num) (by norm_num)

theorem sqrt_sixteen : Real.sqrt 16 = 4 := sqrt_eq_of_mul_self (by norm_num) (by norm_num)

theorem sqrt_twenty_five : Real.sqrt 25 = 5 := sqrt_eq_of_mul_self (by norm_num) (by norm_num)

theorem sqrt_forty_nine : Real.sqrt 49 = 7 := sqrt_eq_of_mul_self (by norm_num) (by norm_num)

/-- One `Step` with `dt = 2` of three bodies at rest on the x axis: masses 1, 2, 1
at `x = -2, 0, -1`. -/
theorem collinear_step :
    let s : State ℝ := ⟨⟨1, -2, 0, 0, 0, 0, 0⟩, ⟨2, 0, 0, 0, 0, 0, 0⟩, ⟨1, -1, 0, 0, 0, 0, 0⟩⟩
    let s' := Step (Double.sqrt Real.sqrt) s.lift (.fin 2)
    (s'.body1.x = .fin 1 ∧ s'.body1.y = .fin 0 ∧
      s'.body1.vx = .fin (-(3 / 4)) ∧ s'.body1.vy = .fin 0) ∧
    (s'.body2.x = .fin 0 ∧ s'.body2.y = .fin 0 ∧
      s'.body2.vx = .fin 0 ∧ s'.body2.vy = .fin 0) ∧
    (s'.body3.x = .fin (7 / 2) ∧ s'.body3.y = .fin 0 ∧
      s'.body3.vx = .fin (9441 / 4900) ∧ s'.body3.vy = .fin 0) := by
  intro s s'
  refine ⟨⟨?_, ?_, ?_, ?_⟩, ⟨?_, ?_, ?_, ?_⟩, ⟨?_, ?_, ?_, ?_⟩⟩ <;>
  norm_num [s', s, Step_body1, Step_body2, Step_body3, iter_x, iter_y, iter_mass, iter_vx,
    iter_vy, kickDrift_x, kickDrift_y, kickDrift_mass, kickDrift_vx, kickDrift_vy, State.lift,
    compute, G_eq_one, Body.lift, Double.fin_div_fin, sqrt_four, sqrt_twenty_five,
    sqrt_forty_nine]

/-! ## Claims -/

/-- C1 (force law).  For every pair of bodies, `compute` returns
`(G*mass_A*mass_B*dx / r^3, G*mass_A*mass_B*dy / r^3)` with
`(dx, dy) = position_B - position_A`, `r = sqrt (dx^2 + dy^2)` and `G = 1`:
(1) in the arithmetic of the program, for all bodies; (2) on bodies whose fields
are numbers, the quotient is the one of real arithmetic, and it is undefined
exactly where `r = 0`, at coincident positions; (3) the result does not change
when the velocities and accelerations of the two bodies are replaced by
arbitrary values. -/
theorem compute_force_law :
    (∀ A B : Body (Double ℝ),
      let dx := B.x - A.x
      let dy := B.y - A.y
      let r := Double.sqrt Real.sqrt (dx * dx + dy * dy)
      compute (Double.sqrt Real.sqrt) A B =
        (.fin 1 * A.mass * B.mass * dx / (r * r * r),
         .fin 1 * A.mass * B.mass * dy / (r * r * r))) ∧
    (∀ A B : Body ℝ,
      let dx := B.x - A.x
      let dy := B.y - A.y
      let r := Real.sqrt (dx ^ 2 + dy ^ 2)
      compute (Double.sqrt Real.sqrt) A.lift B.lift =
        if samePos A B then (.nan, .nan)
        else (.fin (1 * A.mass * B.mass * dx / r ^ 3),
              .fin (1 * A.mass * B.mass * dy / r ^ 3))) ∧
    (∀ (A B : Body (Double ℝ)) (vxA vyA axA ayA vxB vyB axB ayB : Double ℝ),
      compute (Double.sqrt Real.sqrt)
          { A with vx := vxA, vy := vyA, ax := axA, ay := ayA }
          { B with vx := vxB, vy := vyB, ax := axB, ay := ayB } =
        compute (Double.sqrt Real.sqrt) A B) := by
  refine ⟨?_, ?_, ?_⟩
  · intro A B
    simp only [compute, G_eq_one]
  · intro A B
    have hG : (G : ℝ) = 1 := by unfold G; norm_num
    rw [compute_lift]
    simp only [compute, hG, pow_two, pow_succ, pow_zero, one_mul]
  · intro A B vxA vyA axA ayA vxB vyB axB ayB
    rfl

/-- C2 (kick-drift-kick).  For every body `self`, others `other1`, `other2` and
`dt`, `iter` yields: `a0`, the sum of the two forces at the pre-step position
divided by the mass of `self`; `v_half = v + 0.5*a0*dt`; the new position
`position + v_half*dt`; `a1`, the same quotient with `self` at its new position
and the others unchanged; the new velocity `v_half + 0.5*a1*dt`; and the new
acceleration `a1`. -/
theorem iter_kick_drift_kick (self other1 other2 : Body (Double ℝ)) (dt : Double ℝ) :
    let F := compute (Double.sqrt Real.sqrt)
    let a0x := ((F self other1).1 + (F self other2).1) / self.mass
    let a0y := ((F self other1).2 + (F self other2).2) / self.mass
    let vhx := self.vx + 0.5 * a0x * dt
    let vhy := self.vy + 0.5 * a0y * dt
    let px := self.x + vhx * dt
    let py := self.y + vhy * dt
    let self' : Body (Double ℝ) := { self with x := px, y := py }
    let a1x := ((F self' other1).1 + (F self' other2).1) / self.mass
    let a1y := ((F self' other1).2 + (F self' other2).2) / self.mass
    iter (Double.sqrt Real.sqrt) self other1 other2 dt =
      { mass := self.mass, x := px, y := py,
        vx := vhx + 0.5 * a1x * dt, vy := vhy + 0.5 * a1y * dt,
        ax := a1x, ay := a1y } := by
  rfl

/-- C3 (order of the full-system step).  For every state and `dt`, one `Step`
produces `b1' = iter b1 b2 b3`, then `b2' = iter b2 b1' b3`, then
`b3' = iter b3 b1' b2'`: body2 is advanced against the updated body1 and the
not yet updated body3, body3 against the updated body1 and body2. -/
theorem Step_order (b1 b2 b3 : Body (Double ℝ)) (dt : Double ℝ) :
    let b1' := iter (Double.sqrt Real.sqrt) b1 b2 b3 dt
    let b2' := iter (Double.sqrt Real.sqrt) b2 b1' b3 dt
    let b3' := iter (Double.sqrt Real.sqrt) b3 b1' b2' dt
    Step (Double.sqrt Real.sqrt) { body1 := b1, body2 := b2, body3 := b3 } dt =
      { body1 := b1', body2 := b2', body3 := b3' } := by
  rfl

/-- C5, as stated, fails: a unit mass at `(0, 0)` with velocity `(1, 0)` between
unit masses at `(1, 0)` and `(-1, 0)` drifts onto the first of them with
`dt = 1`; the second force evaluation divides by zero, and the backward step
does not return the position and the velocity. -/
theorem iter_not_reversible :
    let self : Body ℝ := ⟨1, 0, 0, 1, 0, 0, 0⟩
    let other1 : Body ℝ := ⟨1, 1, 0, 0, 0, 0, 0⟩
    let other2 : Body ℝ := ⟨1, -1, 0, 0, 0, 0, 0⟩
    let R := iter (Double.sqrt Real.sqrt)
      (iter (Double.sqrt Real.sqrt) self.lift other1.lift other2.lift (.fin 1))
      other1.lift other2.lift (.fin (-1))
    R.x = .nan ∧ R.vx = .nan ∧
      ¬(R.mass = self.lift.mass ∧ R.x = self.lift.x ∧ R.y = self.lift.y ∧
        R.vx = self.lift.vx ∧ R.vy = self.lift.vy) := by
  intro self other1 other2 R
  have hx : R.x = .nan := by
    simp [R, self, other1, other2, iter, compute, G_eq_one, Body.lift, Double.fin_div_fin]
  have hvx : R.vx = .nan := by
    simp [R, self, other1, other2, iter, compute, G_eq_one, Body.lift, Double.fin_div_fin]
  refine ⟨hx, hvx, ?_⟩
  rintro ⟨-, h, -⟩
  rw [hx] at h
  simp [self, Body.lift] at h

/-- C5, amended (time reversibility of the single-body step).  For every body
`self` of nonzero mass, fixed others and every `dt` such that the position of
`self` differs from those of `other1` and `other2` both before and after the
forward step, `iter` with `dt` followed by `iter` with `-dt` returns the mass,
the position and the velocity of `self` exactly to their original values. -/
theorem iter_reversible (self other1 other2 : Body ℝ) (dt : ℝ) (hm : self.mass ≠ 0)
    (h1 : ¬samePos self other1) (h2 : ¬samePos self other2)
    (h1' : ¬samePos (iter (Double.sqrt Real.sqrt) self.lift other1.lift other2.lift (.fin dt))
      other1.lift)
    (h2' : ¬samePos (iter (Double.sqrt Real.sqrt) self.lift other1.lift other2.lift (.fin dt))
      other2.lift) :
    let R := iter (Double.sqrt Real.sqrt)
      (iter (Double.sqrt Real.sqrt) self.lift other1.lift other2.lift (.fin dt))
      other1.lift other2.lift (.fin (-dt))
    R.mass = .fin self.mass ∧ R.x = .fin self.x ∧ R.y = .fin self.y ∧
      R.vx = .fin self.vx ∧ R.vy = .fin self.vy := by
  rw [samePos_iter_lift _ _ _ _ _ hm h1 h2] at h1' h2'
  obtain ⟨km, kx, ky, -, -⟩ := kickDrift_iter_neg self other1 other2 dt
  obtain ⟨rm, rx, ry, rvx, rvy⟩ := iter_real_reverse self other1 other2 dt
  have b1 : ¬samePos (kickDrift Real.sqrt (iter Real.sqrt self other1 other2 dt)
      other1 other2 (-dt)) other1 := by
    intro hs
    exact h1 ⟨kx ▸ hs.1, ky ▸ hs.2⟩
  have b2 : ¬samePos (kickDrift Real.sqrt (iter Real.sqrt self other1 other2 dt)
      other1 other2 (-dt)) other2 := by
    intro hs
    exact h2 ⟨kx ▸ hs.1, ky ▸ hs.2⟩
  intro R
  have hR : R = (iter Real.sqrt (iter Real.sqrt self other1 other2 dt)
      other1 other2 (-dt)).lift := by
    show iter _ (iter _ _ _ _ _) _ _ _ = _
    rw [iter_lift _ _ _ _ hm h1 h2 h1' h2']
    exact iter_lift _ _ _ _ hm h1' h2' b1 b2
  rw [hR]
  exact ⟨congrArg Double.fin rm, congrArg Double.fin rx, congrArg Double.fin ry,
    congrArg Double.fin rvx, congrArg Double.fin rvy⟩

/-- Witness of C5, amended: a unit mass at `(0, 0)` with velocity `(0, 1)` between
unit masses at `(1, 0)` and `(-1, 0)`, `dt = 1`. -/
theorem iter_reversible_witness :
    let self : Body ℝ := ⟨1, 0, 0, 0, 1, 0, 0⟩
    let other1 : Body ℝ := ⟨1, 1, 0, 0, 0, 0, 0⟩
    let other2 : Body ℝ := ⟨1, -1, 0, 0, 0, 0, 0⟩
    let R := iter (Double.sqrt Real.sqrt)
      (iter (Double.sqrt Real.sqrt) self.lift other1.lift other2.lift (.fin 1))
      other1.lift other2.lift (.fin (-1))
    R.mass = .fin 1 ∧ R.x = .fin 0 ∧ R.y = .fin 0 ∧ R.vx = .fin 0 ∧ R.vy = .fin 1 :=
  iter_reversible ⟨1, 0, 0, 0, 1, 0, 0⟩ ⟨1, 1, 0, 0, 0, 0, 0⟩ ⟨1, -1, 0, 0, 0, 0, 0⟩ 1
    (by norm_num) (by simp [samePos]) (by simp [samePos])
    (by simp [samePos, iter, compute, G_eq_one, Body.lift, Double.fin_div_fin])
    (by simp [samePos, iter, compute, G_eq_one, Body.lift, Double.fin_div_fin])

/-- C6 (mass immutability).  `iter` never changes the mass of the body it
advances; a full-system `Step` leaves all three masses unchanged, and so does
any number of `Step`s; consequently "all three masses are greater than zero" is
an invariant of any number of `Step`s. -/
theorem mass_immutable :
    (∀ (body other1 other2 : Body (Double ℝ)) (dt : Double ℝ),
      (iter (Double.sqrt Real.sqrt) body other1 other2 dt).mass = body.mass) ∧
    (∀ (s : State (Double ℝ)) (dt : Double ℝ),
      (Step (Double.sqrt Real.sqrt) s dt).body1.mass = s.body1.mass ∧
      (Step (Double.sqrt Real.sqrt) s dt).body2.mass = s.body2.mass ∧
      (Step (Double.sqrt Real.sqrt) s dt).body3.mass = s.body3.mass) ∧
    (∀ (dt : Double ℝ) (steps : Nat) (s : State (Double ℝ)),
      (loop (Double.sqrt Real.sqrt) dt steps s).body1.mass = s.body1.mass ∧
      (loop (Double.sqrt Real.sqrt) dt steps s).body2.mass = s.body2.mass ∧
      (loop (Double.sqrt Real.sqrt) dt steps s).body3.mass = s.body3.mass) ∧
    (∀ (dt : Double ℝ) (steps : Nat) (s : State (Double ℝ)),
      massesPositive s → massesPositive (loop (Double.sqrt Real.sqrt) dt steps s)) := by
  have hloop : ∀ (dt : Double ℝ) (steps : Nat) (s : State (Double ℝ)),
      (loop (Double.sqrt Real.sqrt) dt steps s).body1.mass = s.body1.mass ∧
      (loop (Double.sqrt Real.sqrt) dt steps s).body2.mass = s.body2.mass ∧
      (loop (Double.sqrt Real.sqrt) dt steps s).body3.mass = s.body3.mass := by
    intro dt steps
    induction steps with
    | zero => intro s; exact ⟨rfl, rfl, rfl⟩
    | succ n ih =>
      intro s
      obtain ⟨h1, h2, h3⟩ := ih (Step (Double.sqrt Real.sqrt) s dt)
      exact ⟨h1, h2, h3⟩
  refine ⟨fun _ _ _ _ => rfl, fun _ _ => ⟨rfl, rfl, rfl⟩, hloop, ?_⟩
  intro dt steps s hs
  obtain ⟨h1, h2, h3⟩ := hloop dt steps s
  unfold massesPositive
  rw [h1, h2, h3]
  exact hs

/-- Witness of C6: three unit masses stay positive over a thousand `Step`s. -/
theorem mass_immutable_witness :
    massesPositive (loop (Double.sqrt Real.sqrt) (.fin 1) 1000
      (State.lift (⟨⟨1, -1, 0, 0, 0, 0, 0⟩, ⟨1, 1, 0, 0, 0, 0, 0⟩, ⟨1, 0, 0, 0, 0, 0, 0⟩⟩ :
        State ℝ))) :=
  mass_immutable.2.2.2 _ _ _ (by simp [massesPositive, State.lift, Body.lift, Double.isPos])

/-- C8 (golden first step).  For every state and `dt`, body1 after one `Step` is
`iter body1 body2 body3 dt` applied once to the pre-step bodies.  In the case
run by `main` (bumblebee, `dt = 1e-4`) the position of body1 after one `Step`
is `(-0.99998156575, 0.000058719)`. -/
theorem Step_body1_golden :
    (∀ (s : State (Double ℝ)) (dt : Double ℝ),
      (Step (Double.sqrt Real.sqrt) s dt).body1 =
        iter (Double.sqrt Real.sqrt) s.body1 s.body2 s.body3 dt) ∧
    (Step (Double.sqrt Real.sqrt) main_state main_dt).body1.x = .fin (-0.99998156575) ∧
    (Step (Double.sqrt Real.sqrt) main_state main_dt).body1.y = .fin 0.000058719 := by
  refine ⟨fun _ _ => rfl, ?_, ?_⟩
  · simp [Step, main_state, main_dt, vsx, vsy, iter, compute, G_eq_one, Double.fin_div_fin]
    norm_num [sqrt_four, Double.fin_div_fin]
  · simp [Step, main_state, main_dt, vsx, vsy, iter, compute, G_eq_one, Double.fin_div_fin]
    norm_num [sqrt_four, Double.fin_div_fin]

/-- C10 (ordering property).  There are a state of three bodies with positive
masses and pairwise distinct positions and a `dt > 0` for which the sequential
`Step` and the symmetric variant give different states: for unit masses at
`(0, 0)` (moving with velocity `(1, 0)`), `(2, 0)` and `(-2, 0)` and `dt = 1`,
body2 ends at `x = 47/32` after `Step` and at `x = 59/32` after the symmetric
variant. -/
theorem Step_ne_Step_symmetric :
    ∃ (s : State ℝ) (dt : ℝ),
      (0 < s.body1.mass ∧ 0 < s.body2.mass ∧ 0 < s.body3.mass) ∧
      (¬samePos s.body1 s.body2 ∧ ¬samePos s.body1 s.body3 ∧ ¬samePos s.body2 s.body3) ∧
      0 < dt ∧
      (Step (Double.sqrt Real.sqrt) s.lift (.fin dt)).body2.x = .fin (47 / 32) ∧
      (Step_symmetric (Double.sqrt Real.sqrt) s.lift (.fin dt)).body2.x = .fin (59 / 32) ∧
      Step (Double.sqrt Real.sqrt) s.lift (.fin dt) ≠
        Step_symmetric (Double.sqrt Real.sqrt) s.lift (.fin dt) := by
  have hseq : (Step (Double.sqrt Real.sqrt)
      (State.lift ⟨⟨1, 0, 0, 1, 0, 0, 0⟩, ⟨1, 2, 0, 0, 0, 0, 0⟩, ⟨1, -2, 0, 0, 0, 0, 0⟩⟩)
      (.fin 1)).body2.x = .fin (47 / 32) := by
    norm_num [Step_body2, iter_x, iter_y, iter_mass, State.lift, compute, G_eq_one, Body.lift,
      Double.fin_div_fin, sqrt_four, sqrt_sixteen]
  have hsym : (Step_symmetric (Double.sqrt Real.sqrt)
      (State.lift ⟨⟨1, 0, 0, 1, 0, 0, 0⟩, ⟨1, 2, 0, 0, 0, 0, 0⟩, ⟨1, -2, 0, 0, 0, 0, 0⟩⟩)
      (.fin 1)).body2.x = .fin (59 / 32) := by
    norm_num [Step_symmetric, iter_x, iter_y, iter_mass, State.lift, compute, G_eq_one,
      Body.lift, Double.fin_div_fin, sqrt_four, sqrt_sixteen]
  refine ⟨⟨⟨1, 0, 0, 1, 0, 0, 0⟩, ⟨1, 2, 0, 0, 0, 0, 0⟩, ⟨1, -2, 0, 0, 0, 0, 0⟩⟩, 1,
    ⟨by norm_num, by norm_num, by norm_num⟩,
    ⟨by norm_num [samePos], by norm_num [samePos], by norm_num [samePos]⟩,
    by norm_num, hseq, hsym, ?_⟩
  intro h
  rw [h, hsym] at hseq
  norm_num at hseq

/-- C12 (acceleration is output only).  For every `self`, `other1`, `other2` and
`dt`, the result of `iter` does not change when the acceleration of `self` and
the velocities and accelerations of `other1` and `other2` are replaced by
arbitrary values. -/
theorem iter_acceleration_output_only (self other1 other2 : Body (Double ℝ)) (dt : Double ℝ)
    (ax ay vx1 vy1 ax1 ay1 vx2 vy2 ax2 ay2 : Double ℝ) :
    iter (Double.sqrt Real.sqrt) { self with ax := ax, ay := ay }
        { other1 with vx := vx1, vy := vy1, ax := ax1, ay := ay1 }
        { other2 with vx := vx2, vy := vy2, ax := ax2, ay := ay2 } dt =
      iter (Double.sqrt Real.sqrt) self other1 other2 dt := by
  rfl

/-- C14, as stated, fails: for unit masses at `(1, 0)` and `(-1, 0)` moving
tangentially with the speed `v`, `v^2 = G*m/(2r) = 1/2`, and a massless third
body at the origin, the acceleration that `iter` assigns (its first half, for
`dt = 0.0001`) is `(-1/4, 0)` for the first body and `(1/4, 0)` for the second:
it points at the origin, but its magnitude is `1/4`, not `v^2 / r = 1/2`. -/
theorem circular_speed_mismatch :
    let v : ℝ := Real.sqrt (1 / 2)
    let b1 : Body ℝ := ⟨1, 1, 0, 0, v, 0, 0⟩
    let b2 : Body ℝ := ⟨1, -1, 0, 0, -v, 0, 0⟩
    let b3 : Body ℝ := ⟨0, 0, 0, 0, 0, 0, 0⟩
    let a1 := kickDrift (Double.sqrt Real.sqrt) b1.lift b2.lift b3.lift (.fin 0.0001)
    let a2 := kickDrift (Double.sqrt Real.sqrt) b2.lift b1.lift b3.lift (.fin 0.0001)
    v ^ 2 = 1 * 1 / (2 * 1) ∧
    a1.ax = .fin (-(1 / 4)) ∧ a1.ay = .fin 0 ∧ a2.ax = .fin (1 / 4) ∧ a2.ay = .fin 0 ∧
    Real.sqrt ((-(1 / 4)) ^ 2 + 0 ^ 2) ≠ v ^ 2 / 1 ∧
    a1.ax ≠ .fin (-(v ^ 2 / 1) * 1) := by
  intro v b1 b2 b3 a1 a2
  have hv : v ^ 2 = 1 / 2 := Real.sq_sqrt (by norm_num)
  have h1x : a1.ax = .fin (-(1 / 4)) := by
    norm_num [a1, b1, b2, b3, kickDrift_ax, compute, G_eq_one, Body.lift, Double.fin_div_fin,
      sqrt_four]
  have h1y : a1.ay = .fin 0 := by
    norm_num [a1, b1, b2, b3, kickDrift_ay, compute, G_eq_one, Body.lift, Double.fin_div_fin,
      sqrt_four]
  have h2x : a2.ax = .fin (1 / 4) := by
    norm_num [a2, b1, b2, b3, kickDrift_ax, compute, G_eq_one, Body.lift, Double.fin_div_fin,
      sqrt_four]
  have h2y : a2.ay = .fin 0 := by
    norm_num [a2, b1, b2, b3, kickDrift_ay, compute, G_eq_one, Body.lift, Double.fin_div_fin,
      sqrt_four]
  refine ⟨by rw [hv]; norm_num, h1x, h1y, h2x, h2y, ?_, ?_⟩
  · rw [hv]
    have : Real.sqrt ((-(1 / 4 : ℝ)) ^ 2 + 0 ^ 2) = 1 / 4 :=
      sqrt_eq_of_mul_self (by norm_num) (by norm_num)
    rw [this]
    norm_num
  · rw [h1x, hv]
    norm_num

/-- C14, amended (circular-orbit test speed).  For two unit masses at `(1, 0)`
and `(-1, 0)` with `G = 1` and a massless third body away from both, the speed
`v` given by `v^2 = G*m/(4r)` with `r = 1` is the circular-orbit speed: the
acceleration that `compute` and `iter` assign to each body (the first half of
`iter`, for every `dt`) is `-(v^2 / r)` times its position, so it points at the
origin and has the magnitude `v^2 / r`. -/
theorem circular_speed (v dt : ℝ) (b3 : Body ℝ) (hm3 : b3.mass = 0)
    (h13 : ¬samePos (⟨1, 1, 0, 0, v, 0, 0⟩ : Body ℝ) b3)
    (h23 : ¬samePos (⟨1, -1, 0, 0, -v, 0, 0⟩ : Body ℝ) b3)
    (hv : v ^ 2 = 1 * 1 / (4 * 1)) :
    let b1 : Body ℝ := ⟨1, 1, 0, 0, v, 0, 0⟩
    let b2 : Body ℝ := ⟨1, -1, 0, 0, -v, 0, 0⟩
    let a1 := kickDrift (Double.sqrt Real.sqrt) b1.lift b2.lift b3.lift (.fin dt)
    let a2 := kickDrift (Double.sqrt Real.sqrt) b2.lift b1.lift b3.lift (.fin dt)
    a1.ax = .fin (-(v ^ 2 / 1) * 1) ∧ a1.ay = .fin (-(v ^ 2 / 1) * 0) ∧
    a2.ax = .fin (-(v ^ 2 / 1) * (-1)) ∧ a2.ay = .fin (-(v ^ 2 / 1) * 0) := by
  intro b1 b2 a1 a2
  have c13 := compute_lift_massless b1 b3 hm3 h13
  have c23 := compute_lift_massless b2 b3 hm3 h23
  have c12 : compute (Double.sqrt Real.sqrt) b1.lift b2.lift = (.fin (-(1 / 4)), .fin 0) := by
    norm_num [b1, b2, compute, G_eq_one, Body.lift, Double.fin_div_fin, sqrt_four]
  have c21 : compute (Double.sqrt Real.sqrt) b2.lift b1.lift = (.fin (1 / 4), .fin 0) := by
    norm_num [b1, b2, compute, G_eq_one, Body.lift, Double.fin_div_fin, sqrt_four]
  refine ⟨?_, ?_, ?_, ?_⟩
  · show (kickDrift _ _ _ _ _).ax = _
    rw [kickDrift_ax, c12, c13, hv]
    norm_num [b1, Body.lift, Double.fin_div_fin]
  · show (kickDrift _ _ _ _ _).ay = _
    rw [kickDrift_ay, c12, c13, hv]
    norm_num [b1, Body.lift, Double.fin_div_fin]
  · show (kickDrift _ _ _ _ _).ax = _
    rw [kickDrift_ax, c21, c23, hv]
    norm_num [b2, Body.lift, Double.fin_div_fin]
  · show (kickDrift _ _ _ _ _).ay = _
    rw [kickDrift_ay, c21, c23, hv]
    norm_num [b2, Body.lift, Double.fin_div_fin]

/-- Witness of C14, amended: `v = 1/2`, the third body massless at the origin. -/
theorem circular_speed_witness :
    let b1 : Body ℝ := ⟨1, 1, 0, 0, 1 / 2, 0, 0⟩
    let b2 : Body ℝ := ⟨1, -1, 0, 0, -(1 / 2), 0, 0⟩
    let b3 : Body ℝ := ⟨0, 0, 0, 0, 0, 0, 0⟩
    let a1 := kickDrift (Double.sqrt Real.sqrt) b1.lift b2.lift b3.lift (.fin 0.0001)
    let a2 := kickDrift (Double.sqrt Real.sqrt) b2.lift b1.lift b3.lift (.fin 0.0001)
    a1.ax = .fin (-((1 / 2) ^ 2 / 1) * 1) ∧ a1.ay = .fin (-((1 / 2) ^ 2 / 1) * 0) ∧
    a2.ax = .fin (-((1 / 2) ^ 2 / 1) * (-1)) ∧ a2.ay = .fin (-((1 / 2) ^ 2 / 1) * 0) :=
  circular_speed (1 / 2) 0.0001 ⟨0, 0, 0, 0, 0, 0, 0⟩ rfl
    (by norm_num [samePos]) (by norm_num [samePos]) (by norm_num)

/-- C15 (momentum is not exactly conserved).  There are a state of three bodies
with positive masses, positions pairwise distinct before the `Step` and after
each of its three single-body updates, and a `dt > 0` such that the total
momentum after one `Step` differs from the one before: masses 1, 2, 1 at rest at
`x = -2, 0, -1` on the x axis and `dt = 2` have total momentum `(0, 0)` before
and `(2883/2450, 0)` after. -/
theorem momentum_not_conserved :
    ∃ (s : State ℝ) (dt : ℝ),
      (0 < s.body1.mass ∧ 0 < s.body2.mass ∧ 0 < s.body3.mass) ∧
      distinctPositions s.lift ∧
      distinctPositions
        ⟨(Step (Double.sqrt Real.sqrt) s.lift (.fin dt)).body1, s.lift.body2, s.lift.body3⟩ ∧
      distinctPositions
        ⟨(Step (Double.sqrt Real.sqrt) s.lift (.fin dt)).body1,
          (Step (Double.sqrt Real.sqrt) s.lift (.fin dt)).body2, s.lift.body3⟩ ∧
      distinctPositions (Step (Double.sqrt Real.sqrt) s.lift (.fin dt)) ∧
      0 < dt ∧
      momentum_x s.lift = .fin 0 ∧ momentum_y s.lift = .fin 0 ∧
      momentum_x (Step (Double.sqrt Real.sqrt) s.lift (.fin dt)) = .fin (2883 / 2450) ∧
      momentum_y (Step (Double.sqrt Real.sqrt) s.lift (.fin dt)) = .fin 0 ∧
      momentum_x (Step (Double.sqrt Real.sqrt) s.lift (.fin dt)) ≠ momentum_x s.lift := by
  obtain ⟨⟨x1, y1, vx1, vy1⟩, ⟨x2, y2, vx2, vy2⟩, ⟨x3, y3, vx3, vy3⟩⟩ := collinear_step
  have hp : momentum_x (Step (Double.sqrt Real.sqrt) (State.lift
      ⟨⟨1, -2, 0, 0, 0, 0, 0⟩, ⟨2, 0, 0, 0, 0, 0, 0⟩, ⟨1, -1, 0, 0, 0, 0, 0⟩⟩) (.fin 2)) =
      .fin (2883 / 2450) := by
    unfold momentum_x
    rw [vx1, vx2, vx3]
    norm_num [Step_body1, Step_body2, Step_body3, iter_mass, State.lift, Body.lift]
  refine ⟨⟨⟨1, -2, 0, 0, 0, 0, 0⟩, ⟨2, 0, 0, 0, 0, 0, 0⟩, ⟨1, -1, 0, 0, 0, 0, 0⟩⟩, 2,
    ⟨by norm_num, by norm_num, by norm_num⟩, ?_, ?_, ?_, ?_, by norm_num, ?_, ?_, hp, ?_, ?_⟩
  · norm_num [distinctPositions, samePos, State.lift, Body.lift]
  · simp only [distinctPositions, samePos]
    rw [x1]
    norm_num [State.lift, Body.lift]
  · simp only [distinctPositions, samePos]
    rw [x1, x2]
    norm_num [State.lift, Body.lift]
  · simp only [distinctPositions, samePos]
    rw [x1, x2, x3]
    norm_num
  · norm_num [momentum_x, State.lift, Body.lift]
  · norm_num [momentum_y, State.lift, Body.lift]
  · unfold momentum_y
    rw [vy1, vy2, vy3]
    norm_num [Step_body1, Step_body2, Step_body3, iter_mass, State.lift, Body.lift]
  · rw [hp]
    norm_num [momentum_x, State.lift, Body.lift]

/-- C16 (distinct pre-step positions do not make a step safe).  There are
bodies with positive masses and pairwise distinct positions and a `dt > 0` (unit
masses, `self` at `(0, 0)` with velocity `(1, 0)`, `other1` at `(1, 0)`,
`other2` at `(-1, 0)`, `dt = 1`) such that inside `iter` the drift moves `self`
exactly onto the position of `other1`: the second force evaluation
`compute self other1` has the divisor `r_cubed = 0`, and `iter` returns an
undefined acceleration and velocity. -/
theorem iter_drift_collision :
    ∃ (self other1 other2 : Body ℝ) (dt : ℝ),
      (0 < self.mass ∧ 0 < other1.mass ∧ 0 < other2.mass) ∧
      (¬samePos self other1 ∧ ¬samePos self other2 ∧ ¬samePos other1 other2) ∧
      0 < dt ∧
      samePos (kickDrift (Double.sqrt Real.sqrt) self.lift other1.lift other2.lift (.fin dt))
        other1.lift ∧
      r_cubed (Double.sqrt Real.sqrt)
        (kickDrift (Double.sqrt Real.sqrt) self.lift other1.lift other2.lift (.fin dt))
        other1.lift = .fin 0 ∧
      samePos (iter (Double.sqrt Real.sqrt) self.lift other1.lift other2.lift (.fin dt))
        other1.lift ∧
      (iter (Double.sqrt Real.sqrt) self.lift other1.lift other2.lift (.fin dt)).ax = .nan ∧
      (iter (Double.sqrt Real.sqrt) self.lift other1.lift other2.lift (.fin dt)).vx = .nan := by
  refine ⟨⟨1, 0, 0, 1, 0, 0, 0⟩, ⟨1, 1, 0, 0, 0, 0, 0⟩, ⟨1, -1, 0, 0, 0, 0, 0⟩, 1,
    ⟨by norm_num, by norm_num, by norm_num⟩,
    ⟨by norm_num [samePos], by norm_num [samePos], by norm_num [samePos]⟩,
    by norm_num, ?_, ?_, ?_, ?_, ?_⟩
  · simp [samePos, kickDrift, compute, G_eq_one, Body.lift, Double.fin_div_fin]
  · simp [r_cubed, kickDrift, compute, G_eq_one, Body.lift, Double.fin_div_fin]
  · simp [samePos, iter, compute, G_eq_one, Body.lift, Double.fin_div_fin]
  · simp [iter, compute, G_eq_one, Body.lift, Double.fin_div_fin]
  · simp [iter, compute, G_eq_one, Body.lift, Double.fin_div_fin]

/-- C17, as stated, fails: for unit masses at `(0, 0)` (moving with velocity
`(1, 0)`), `(1, 0)` and `(-1, 0)` and `dt = 1`, the drift of body1 ends on
body2, its second force evaluation divides by zero, and the single-body steps
in reverse order with `-dt` do not restore the position of body1. -/
theorem Step_reverse_not_inverse :
    let s : State ℝ :=
      ⟨⟨1, 0, 0, 1, 0, 0, 0⟩, ⟨1, 1, 0, 0, 0, 0, 0⟩, ⟨1, -1, 0, 0, 0, 0, 0⟩⟩
    let R := Step_reverse (Double.sqrt Real.sqrt)
      (Step (Double.sqrt Real.sqrt) s.lift (.fin 1)) (.fin (-1))
    (Step (Double.sqrt Real.sqrt) s.lift (.fin 1)).body1.vx = .nan ∧
    R.body1.x = .nan ∧ R.body1.x ≠ s.lift.body1.x := by
  intro s R
  have hv : (Step (Double.sqrt Real.sqrt) s.lift (.fin 1)).body1.vx = .nan := by
    simp [s, Step_body1, State.lift, iter, compute, G_eq_one, Body.lift, Double.fin_div_fin]
  have hx : R.body1.x = .nan := by
    show (Step_reverse _ _ _).body1.x = _
    rw [Step_reverse_body1]
    exact iter_x_of_vx_nan _ _ _ _ hv
  refine ⟨hv, hx, ?_⟩
  rw [hx]
  simp [s, State.lift, Body.lift]

/-- C17, amended (exact inverse of a full-system step).  For every state whose
three masses are not zero and every `dt` such that the positions are pairwise
distinct before the `Step` and after each of its three single-body updates:
after one `Step` with `dt`, the single-body steps in the reverse order with
`-dt` (`iter` on body3 against body1 and body2, then on body2 against body1 and
body3, then on body1 against body2 and body3) restore the mass, position and
velocity of all three bodies exactly. -/
theorem Step_reverse_inverse (s : State ℝ) (dt : ℝ)
    (hm1 : s.body1.mass ≠ 0) (hm2 : s.body2.mass ≠ 0) (hm3 : s.body3.mass ≠ 0)
    (h0 : distinctPositions s.lift)
    (h1 : distinctPositions
      ⟨(Step (Double.sqrt Real.sqrt) s.lift (.fin dt)).body1, s.lift.body2, s.lift.body3⟩)
    (h2 : distinctPositions
      ⟨(Step (Double.sqrt Real.sqrt) s.lift (.fin dt)).body1,
        (Step (Double.sqrt Real.sqrt) s.lift (.fin dt)).body2, s.lift.body3⟩)
    (h3 : distinctPositions (Step (Double.sqrt Real.sqrt) s.lift (.fin dt))) :
    let R := Step_reverse (Double.sqrt Real.sqrt)
      (Step (Double.sqrt Real.sqrt) s.lift (.fin dt)) (.fin (-dt))
    (R.body1.mass = s.lift.body1.mass ∧ R.body1.x = s.lift.body1.x ∧
      R.body1.y = s.lift.body1.y ∧ R.body1.vx = s.lift.body1.vx ∧
      R.body1.vy = s.lift.body1.vy) ∧
    (R.body2.mass = s.lift.body2.mass ∧ R.body2.x = s.lift.body2.x ∧
      R.body2.y = s.lift.body2.y ∧ R.body2.vx = s.lift.body2.vx ∧
      R.body2.vy = s.lift.body2.vy) ∧
    (R.body3.mass = s.lift.body3.mass ∧ R.body3.x = s.lift.body3.x ∧
      R.body3.y = s.lift.body3.y ∧ R.body3.vx = s.lift.body3.vx ∧
      R.body3.vy = s.lift.body3.vy) := by
  obtain ⟨d1, d2, d3⟩ := Step_defined_of_distinct s dt hm1 hm2 hm3 h0 h1 h2 h3
  obtain ⟨r3, r2, r1⟩ := Step_reverse_real s dt
  have m3 : sameMassPos (Step_reverse Real.sqrt (Step Real.sqrt s dt) (-dt)).body3 s.body3 := by
    rw [r3]
    exact sameMassPos_iter_reverse _ _ _ _
  have m2 : sameMassPos (Step_reverse Real.sqrt (Step Real.sqrt s dt) (-dt)).body2 s.body2 := by
    rw [r2]
    exact sameMassPos_iter_reverse _ _ _ _
  have e3 : iterDefined (Step Real.sqrt s dt).body3 (Step Real.sqrt s dt).body1
      (Step Real.sqrt s dt).body2 (-dt) := iterDefined_reverse d3
  have e2 : iterDefined (Step Real.sqrt s dt).body2 (Step Real.sqrt s dt).body1
      (Step_reverse Real.sqrt (Step Real.sqrt s dt) (-dt)).body3 (-dt) :=
    iterDefined_congr_others ⟨rfl, rfl, rfl⟩ (sameMassPos_symm m3) (iterDefined_reverse d2)
  have e1 : iterDefined (Step Real.sqrt s dt).body1
      (Step_reverse Real.sqrt (Step Real.sqrt s dt) (-dt)).body2
      (Step_reverse Real.sqrt (Step Real.sqrt s dt) (-dt)).body3 (-dt) :=
    iterDefined_congr_others (sameMassPos_symm m2) (sameMassPos_symm m3)
      (iterDefined_reverse d1)
  intro R
  have hR : R = (Step_reverse Real.sqrt (Step Real.sqrt s dt) (-dt)).lift := by
    show Step_reverse _ (Step _ _ _) _ = _
    rw [Step_lift s dt d1 d2 d3]
    exact Step_reverse_lift _ _ e3 e2 e1
  obtain ⟨am, ax, ay, avx, avy⟩ := iter_real_reverse s.body1 s.body2 s.body3 dt
  obtain ⟨bm, bx, by_, bvx, bvy⟩ :=
    iter_real_reverse s.body2 (Step Real.sqrt s dt).body1 s.body3 dt
  obtain ⟨cm, cx, cy, cvx, cvy⟩ :=
    iter_real_reverse s.body3 (Step Real.sqrt s dt).body1 (Step Real.sqrt s dt).body2 dt
  rw [hR]
  refine ⟨⟨?_, ?_, ?_, ?_, ?_⟩, ⟨?_, ?_, ?_, ?_, ?_⟩, ⟨?_, ?_, ?_, ?_, ?_⟩⟩
  · exact congrArg Double.fin ((congrArg Body.mass r1).trans am)
  · exact congrArg Double.fin ((congrArg Body.x r1).trans ax)
  · exact congrArg Double.fin ((congrArg Body.y r1).trans ay)
  · exact congrArg Double.fin ((congrArg Body.vx r1).trans avx)
  · exact congrArg Double.fin ((congrArg Body.vy r1).trans avy)
  · exact congrArg Double.fin ((congrArg Body.mass r2).trans bm)
  · exact congrArg Double.fin ((congrArg Body.x r2).trans bx)
  · exact congrArg Double.fin ((congrArg Body.y r2).trans by_)
  · exact congrArg Double.fin ((congrArg Body.vx r2).trans bvx)
  · exact congrArg Double.fin ((congrArg Body.vy r2).trans bvy)
  · exact congrArg Double.fin ((congrArg Body.mass r3).trans cm)
  · exact congrArg Double.fin ((congrArg Body.x r3).trans cx)
  · exact congrArg Double.fin ((congrArg Body.y r3).trans cy)
  · exact congrArg Double.fin ((congrArg Body.vx r3).trans cvx)
  · exact congrArg Double.fin ((congrArg Body.vy r3).trans cvy)

/-- Witness of C17, amended: masses 1, 2, 1 at rest at `x = -2, 0, -1` on the x
axis, `dt = 2`. -/
theorem Step_reverse_inverse_witness :
    let s : State ℝ := ⟨⟨1, -2, 0, 0, 0, 0, 0⟩, ⟨2, 0, 0, 0, 0, 0, 0⟩, ⟨1, -1, 0, 0, 0, 0, 0⟩⟩
    let R := Step_reverse (Double.sqrt Real.sqrt)
      (Step (Double.sqrt Real.sqrt) s.lift (.fin 2)) (.fin (-2))
    (R.body1.mass = s.lift.body1.mass ∧ R.body1.x = s.lift.body1.x ∧
      R.body1.y = s.lift.body1.y ∧ R.body1.vx = s.lift.body1.vx ∧
      R.body1.vy = s.lift.body1.vy) ∧
    (R.body2.mass = s.lift.body2.mass ∧ R.body2.x = s.lift.body2.x ∧
      R.body2.y = s.lift.body2.y ∧ R.body2.vx = s.lift.body2.vx ∧
      R.body2.vy = s.lift.body2.vy) ∧
    (R.body3.mass = s.lift.body3.mass ∧ R.body3.x = s.lift.body3.x ∧
      R.body3.y = s.lift.body3.y ∧ R.body3.vx = s.lift.body3.vx ∧
      R.body3.vy = s.lift.body3.vy) :=
  Step_reverse_inverse
    ⟨⟨1, -2, 0, 0, 0, 0, 0⟩, ⟨2, 0, 0, 0, 0, 0, 0⟩, ⟨1, -1, 0, 0, 0, 0, 0⟩⟩ 2
    (by norm_num) (by norm_num) (by norm_num)
    (by norm_num [distinctPositions, samePos, State.lift, Body.lift])
    (by
      obtain ⟨⟨x1, -⟩, -, -⟩ := collinear_step
      simp only [distinctPositions, samePos]
      rw [x1]
      norm_num [State.lift, Body.lift])
    (by
      obtain ⟨⟨x1, -⟩, ⟨x2, -⟩, -⟩ := collinear_step
      simp only [distinctPositions, samePos]
      rw [x1, x2]
      norm_num [State.lift, Body.lift])
    (by
      obtain ⟨⟨x1, -⟩, ⟨x2, -⟩, ⟨x3, -⟩⟩ := collinear_step
      simp only [distinctPositions, samePos]
      rw [x1, x2, x3]
      norm_num)

end ThreeBody
